import Mathlib

/-
  Verification development for the epoll-based event demultiplexer of
  libglusterfs (src/libglusterfs/src/event-epoll.c).

  The per-slot and per-table state machines are shallowly embedded as pure
  Lean functions over explicit state records.  Kernel calls (epoll_ctl,
  epoll_wait) and memory allocation are modelled by boolean oracles passed
  as arguments; the requests a function issues to the kernel are returned
  as data so that theorems can talk about them.
-/

set_option linter.unusedVariables false
set_option linter.unnecessarySeqFocus false
set_option maxRecDepth 40000

namespace EventEpoll

/-- EPOLLIN bit of the epoll events mask (sys/epoll.h). -/
def EPOLLIN : Nat := 0x001

/-- EPOLLPRI bit of the epoll events mask (sys/epoll.h). -/
def EPOLLPRI : Nat := 0x002

/-- EPOLLOUT bit of the epoll events mask (sys/epoll.h). -/
def EPOLLOUT : Nat := 0x004

/-- EPOLLERR bit of the epoll events mask (sys/epoll.h). -/
def EPOLLERR : Nat := 0x008

/-- EPOLLHUP bit of the epoll events mask (sys/epoll.h). -/
def EPOLLHUP : Nat := 0x010

/-- EPOLLONESHOT bit of the epoll events mask (sys/epoll.h). -/
def EPOLLONESHOT : Nat := 0x40000000

/-- Modelled from the spec: inner-table width S, a small constant
(the header gf-event.h defining EVENT_EPOLL_SLOTS is not in src/;
the spec gives the example value 1024). -/
def EVENT_EPOLL_SLOTS : Nat := 1024

/-- Modelled from the spec: outer-table width T, a small constant
(the header gf-event.h defining EVENT_EPOLL_TABLES is not in src/;
the spec gives the example value 1024). -/
def EVENT_EPOLL_TABLES : Nat := 1024

/-- Modelled from the spec: maximum worker count (the header defining
EVENT_MAX_THREADS is not in src/; the spec says MAX_THREADS is small,
e.g. 32). -/
def EVENT_MAX_THREADS : Nat := 32

/-- struct event_slot_epoll (event-epoll.c:23-37), minus the per-table
slots_used counter which the source only ever reads through the first
slot of a table and which the model keeps in Table.  Pointers (handler,
data) are modelled as numeric identifiers with 0 playing NULL; membership
of the pool's poller_death list is modelled by the flag on_poller_death. -/
structure Slot where
  fd : Int
  events : Nat
  gen : Int
  idx : Int
  ref : Int
  do_close : Bool
  in_handler : Int
  handled_error : Nat
  handler : Nat
  data : Nat
  on_poller_death : Bool
deriving DecidableEq, Repr

/-- An all-zero slot, as produced by memset/GF_CALLOC. -/
def zeroSlot : Slot :=
  { fd := 0
    events := 0
    gen := 0
    idx := 0
    ref := 0
    do_close := false
    in_handler := 0
    handled_error := 0
    handler := 0
    data := 0
    on_poller_death := false }

/-- One outer bucket of the two-level registry: EVENT_EPOLL_SLOTS slots
plus the slots_used counter (stored in slot 0 in the C layout). -/
structure Table where
  slots_used : Int
  slots : List Slot
deriving DecidableEq, Repr

/-- event_slot_ref (event-epoll.c:62-67): GF_ATOMIC_INC of the refcount. -/
def event_slot_ref (s : Slot) : Slot :=
  { s with ref := s.ref + 1 }

/-- Per-slot effect of __event_slot_dealloc (event-epoll.c:135-152):
bump gen, free the fd field, clear handled_error and in_handler, destroy
the lock and detach the poller_death link. -/
def __event_slot_dealloc_slot (s : Slot) : Slot :=
  { s with
    gen := s.gen + 1
    fd := -1
    handled_error := 0
    in_handler := 0
    on_poller_death := false }

/-- __event_slot_dealloc (event-epoll.c:135-152): per-slot wipe plus the
table-level slots_used decrement, performed only if the slot held an fd. -/
def __event_slot_dealloc (t : Table) (offset : Nat) : Table :=
  match t.slots.get? offset with
  | none => t
  | some s =>
      { slots_used := if s.fd = -1 then t.slots_used else t.slots_used - 1
        slots := t.slots.set offset (__event_slot_dealloc_slot s) }

/-- event_slot_unref (event-epoll.c:234-261) at slot granularity:
GF_ATOMIC_DEC; on reaching zero, capture fd and do_close under the slot
lock, clear do_close, deallocate the slot, and close the fd if requested.
The returned Bool reports whether sys_close was called. -/
def event_slot_unref_slot (s : Slot) : Slot × Bool :=
  let r := s.ref - 1
  if r = 0 then
    let do_close := s.do_close
    (__event_slot_dealloc_slot { s with ref := r, do_close := false }, do_close)
  else
    ({ s with ref := r }, false)

/-- __slot_update_events (event-epoll.c:302-336): tri-valued update of the
events mask.  1 sets the bit, 0 clears it (32-bit complement of the mask),
-1 does nothing, and any other value is only logged, leaving the mask
unchanged. -/
def __slot_update_events (slot : Slot) (poll_in poll_out : Int) : Slot :=
  let s1 :=
    if poll_in = 1 then { slot with events := slot.events ||| EPOLLIN }
    else if poll_in = 0 then
      { slot with events := slot.events &&& (0xFFFFFFFF ^^^ EPOLLIN) }
    else slot
  if poll_out = 1 then { s1 with events := s1.events ||| EPOLLOUT }
  else if poll_out = 0 then
    { s1 with events := s1.events &&& (0xFFFFFFFF ^^^ EPOLLOUT) }
  else s1

/-- Outcome of one dispatch step on a delivered event: the slot state after
the lookup reference has been dropped, whether the registered handler was
invoked, and the return code of event_dispatch_epoll_handler. -/
structure DispatchResult where
  slot : Slot
  invoked : Bool
  ret : Int
deriving DecidableEq, Repr

/-- event_dispatch_epoll_handler (event-epoll.c:544-624) for the case where
event_slot_get found the slot (the table entry exists): take the lookup
reference, then under the slot lock validate fd, generation, in_handler and
handled_error in the source's order; on the live path record the error
disposition and claim the slot via in_handler, and outside the lock invoke
the snapshotted handler unless error delivery was suppressed; finally drop
the lookup reference.  gen and events are the payload decoded from the
epoll event. -/
def event_dispatch_epoll_handler (s : Slot) (gen : Int) (events : Nat) :
    DispatchResult :=
  let s0 := event_slot_ref s
  if s0.fd = -1 then
    { slot := (event_slot_unref_slot s0).1, invoked := false, ret := 0 }
  else if gen ≠ s0.gen then
    { slot := (event_slot_unref_slot s0).1, invoked := false, ret := 0 }
  else if s0.in_handler > 0 then
    { slot := (event_slot_unref_slot s0).1, invoked := false, ret := 0 }
  else if s0.handled_error ≠ 0 then
    { slot := (event_slot_unref_slot s0).1, invoked := false, ret := 0 }
  else
    let s1 := { s0 with
                handled_error := events &&& (EPOLLERR ||| EPOLLHUP)
                in_handler := s0.in_handler + 1 }
    { slot := (event_slot_unref_slot s1).1
      invoked := s1.handler != 0
      ret := 0 }

/-- Outcome of event_handled_epoll: the slot after the lookup reference is
dropped, the EPOLL_CTL_MOD request issued to the kernel (events mask, idx
and gen of the payload) if any, and the returned code. -/
structure HandledResult where
  slot : Slot
  rearm : Option (Nat × Int × Int)
  ret : Int
deriving DecidableEq, Repr

/-- event_handled_epoll (event-epoll.c:942-995) for the case where
event_slot_get found the slot: take the lookup reference, decrement
in_handler under the slot lock, and unless the generation changed, re-arm
the kernel with the slot's current events and the caller's unchanged gen
once in_handler is back to zero; then drop the lookup reference.  kernelOk
models the outcome of the epoll_ctl call. -/
def event_handled_epoll (s : Slot) (fd idx gen : Int) (kernelOk : Bool) :
    HandledResult :=
  let s0 := event_slot_ref s
  let s1 := { s0 with in_handler := s0.in_handler - 1 }
  if gen ≠ s1.gen then
    { slot := (event_slot_unref_slot s1).1, rearm := none, ret := 0 }
  else if s1.in_handler = 0 then
    { slot := (event_slot_unref_slot s1).1
      rearm := some (s1.events, idx, gen)
      ret := if kernelOk then 0 else -1 }
  else
    { slot := (event_slot_unref_slot s1).1, rearm := none, ret := 0 }

/-- Outcome of event_select_on_epoll: the slot after the lookup reference
is dropped (none when the lookup failed), the EPOLL_CTL_MOD request issued
to the kernel if any, the local ret of the epoll_ctl call, and the value
the function returns to its caller. -/
structure SelectOnResult where
  slot : Option Slot
  kernelCall : Option (Nat × Int × Int)
  kernelRet : Int
  ret : Int
deriving DecidableEq, Repr

/-- event_select_on_epoll (event-epoll.c:484-542): on lookup failure return
-1; otherwise take the lookup reference, update the events mask with the
tri-valued arguments under the slot lock, skip the kernel call entirely
when in_handler is nonzero, else issue EPOLL_CTL_MOD with the new mask and
unchanged gen; drop the lookup reference and return idx — the local ret of
the epoll_ctl (initialized to -1) is never returned.  kernelOk models the
epoll_ctl outcome. -/
def event_select_on_epoll (sOpt : Option Slot) (fd idx poll_in poll_out : Int)
    (kernelOk : Bool) : SelectOnResult :=
  match sOpt with
  | none => { slot := none, kernelCall := none, kernelRet := -1, ret := -1 }
  | some s =>
    let s0 := event_slot_ref s
    let s1 := __slot_update_events s0 poll_in poll_out
    if s1.in_handler ≠ 0 then
      { slot := some (event_slot_unref_slot s1).1
        kernelCall := none
        kernelRet := -1
        ret := idx }
    else
      { slot := some (event_slot_unref_slot s1).1
        kernelCall := some (s1.events, idx, s1.gen)
        kernelRet := if kernelOk then 0 else -1
        ret := idx }

/-- Outcome of event_unregister_epoll_common: the slot after both
references are dropped (unchanged input when the negative-handle or lookup
path was taken), whether an EPOLL_CTL_DEL was issued to the kernel,
whether sys_close was called, and the returned code. -/
structure UnregisterResult where
  slot : Option Slot
  kernelDel : Bool
  closed : Bool
  ret : Int
deriving DecidableEq, Repr

/-- event_unregister_epoll_common (event-epoll.c:423-469): ret starts at
-1; a negative idx goes straight out (no lookup, no kernel call, ret still
-1); a failed lookup returns -1; otherwise take the lookup reference,
issue EPOLL_CTL_DEL under the slot lock, and only on its success record
do_close and bump gen; in both cases drop two references — the lookup's
and the original registration's.  sOpt models the event_slot_get result
and kernelOk the epoll_ctl outcome. -/
def event_unregister_epoll_common (sOpt : Option Slot) (fd idx : Int)
    (do_close : Bool) (kernelOk : Bool) : UnregisterResult :=
  if idx < 0 then
    { slot := sOpt, kernelDel := false, closed := false, ret := -1 }
  else
    match sOpt with
    | none => { slot := none, kernelDel := false, closed := false, ret := -1 }
    | some s =>
      let s0 := event_slot_ref s
      let s1 :=
        if kernelOk then { s0 with do_close := do_close, gen := s0.gen + 1 }
        else s0
      let u1 := event_slot_unref_slot s1
      let u2 := event_slot_unref_slot u1.1
      { slot := some u2.1
        kernelDel := true
        closed := u1.2 || u2.2
        ret := if kernelOk then 0 else -1 }

/-- event_unregister_epoll (event-epoll.c:471-475). -/
def event_unregister_epoll (sOpt : Option Slot) (fd idx_hint : Int)
    (kernelOk : Bool) : UnregisterResult :=
  event_unregister_epoll_common sOpt fd idx_hint false kernelOk

/-- event_unregister_close_epoll (event-epoll.c:477-482). -/
def event_unregister_close_epoll (sOpt : Option Slot) (fd idx_hint : Int)
    (kernelOk : Bool) : UnregisterResult :=
  event_unregister_epoll_common sOpt fd idx_hint true kernelOk

/-- The fields of struct event_pool (gf-event.h) that event-epoll.c uses:
the two-level slot registry ereg (EVENT_EPOLL_TABLES optional buckets),
the destroy flag, the desired and active worker counts, and the worker
roster pollers (EVENT_MAX_THREADS thread ids, 0 meaning empty). -/
structure Pool where
  ereg : List (Option Table)
  destroy : Int
  eventthreadcount : Int
  activethreadcount : Int
  pollers : List Nat
deriving DecidableEq, Repr

/-- __event_newtable (event-epoll.c:44-60): GF_CALLOC a bucket (allocOk
models allocation success), mark every slot free (fd := -1), and install
it in ereg at table_idx. -/
def __event_newtable (pool : Pool) (table_idx : Nat) (allocOk : Bool) :
    Option (Pool × Table) :=
  if allocOk then
    let table : Table :=
      { slots_used := 0
        slots := List.replicate EVENT_EPOLL_SLOTS { zeroSlot with fd := -1 } }
    some ({ pool with ereg := pool.ereg.set table_idx (some table) }, table)
  else none

/-- The inner for-loop of __event_slot_alloc (event-epoll.c:101-122):
linear scan of a bucket for the first slot with fd == -1, returning its
offset. -/
def __slot_scan : List Slot → Option Nat
  | [] => none
  | s :: rest =>
    if s.fd = -1 then some 0 else (__slot_scan rest).map (· + 1)

/-- The slot reinitialization inside __event_slot_alloc
(event-epoll.c:101-121): memset the slot to zero except that gen is
preserved and bumped, store the fd, re-init the lock and list link, and
only when poller-death notification was requested store the handle in idx
and enqueue the slot on the pool's poller_death list. -/
def __event_slot_wipe (s : Slot) (fd : Int) (notify_poller_death : Bool)
    (handle : Int) : Slot :=
  let wiped := { zeroSlot with fd := fd, gen := s.gen + 1 }
  if notify_poller_death then
    { wiped with idx := handle, on_poller_death := true }
  else wiped

/-- The found-a-free-slot arm of __event_slot_alloc (event-epoll.c:101-132):
wipe slot j of bucket i, bump the bucket's slots_used, take the
registration's reference, and return the handle i·S + j. -/
def __event_slot_alloc_at (pool : Pool) (i j : Nat) (t : Table) (fd : Int)
    (notify_poller_death : Bool) : Pool × Int :=
  match t.slots.get? j with
  | none => (pool, -1)
  | some s =>
    let handle : Int := Int.ofNat (i * EVENT_EPOLL_SLOTS + j)
    let s1 := event_slot_ref (__event_slot_wipe s fd notify_poller_death handle)
    let t1 : Table := { slots_used := t.slots_used + 1
                        slots := t.slots.set j s1 }
    ({ pool with ereg := pool.ereg.set i (some t1) }, handle)

/-- The retry loop of __event_slot_alloc (event-epoll.c:69-133), starting
at outer index i with fuel = EVENT_EPOLL_TABLES - i.  Faithful to the
source's control flow: the while body always breaks or returns on its
first iteration (the trailing i++ is unreachable), so an existing bucket
whose slots_used equals EVENT_EPOLL_SLOTS fails the whole allocation
immediately; only the no-free-slot rescan path advances i.  The fuel-0
case is the loop exit at i = EVENT_EPOLL_TABLES, where the source would
dereference a NULL table; the model reports failure there. -/
def __event_slot_alloc_loop (fd : Int) (notify_poller_death : Bool)
    (allocOk : Bool) : Pool → Nat → Nat → Pool × Int
  | pool, _, 0 => (pool, -1)
  | pool, i, fuel+1 =>
    match pool.ereg.getD i none with
    | some t =>
      if t.slots_used = (EVENT_EPOLL_SLOTS : Int) then (pool, -1)
      else
        match __slot_scan t.slots with
        | some j => __event_slot_alloc_at pool i j t fd notify_poller_death
        | none => __event_slot_alloc_loop fd notify_poller_death allocOk pool
            (i + 1) fuel
    | none =>
      match __event_newtable pool i allocOk with
      | none => (pool, -1)
      | some (pool1, t) =>
        match __slot_scan t.slots with
        | some j => __event_slot_alloc_at pool1 i j t fd notify_poller_death
        | none => __event_slot_alloc_loop fd notify_poller_death allocOk pool1
            (i + 1) fuel

/-- __event_slot_alloc (event-epoll.c:69-133): run the retry loop from
outer index 0. -/
def __event_slot_alloc (pool : Pool) (fd : Int) (notify_poller_death : Bool)
    (allocOk : Bool) : Pool × Int :=
  __event_slot_alloc_loop fd notify_poller_death allocOk pool 0
    EVENT_EPOLL_TABLES

/-- event_pool_dispatched_unlocked (event-epoll.c:831-835): whether worker
1 (roster index 0) exists. -/
def event_pool_dispatched_unlocked (pool : Pool) : Bool :=
  pool.pollers.getD 0 0 != 0

/-- The thread-spawning loop of event_reconfigure_threads_epoll
(event-epoll.c:870-897), from roster index i for fuel more indices: where
the roster entry is 0, GF_CALLOC the per-thread argument (allocOk i) and
gf_thread_create the worker (spawnOk i); only when both succeed is the
roster entry set to the new thread id (tid i); failures just skip the
index. -/
def reconfigureSpawnLoop (allocOk spawnOk : Nat → Bool) (tid : Nat → Nat) :
    List Nat → Nat → Nat → List Nat
  | pollers, _, 0 => pollers
  | pollers, i, fuel+1 =>
    let pollers1 :=
      if pollers.getD i 0 = 0 then
        if allocOk i then
          if spawnOk i then pollers.set i (tid i) else pollers
        else pollers
      else pollers
    reconfigureSpawnLoop allocOk spawnOk tid pollers1 (i + 1) fuel

/-- Outcome of event_reconfigure_threads_epoll: the updated pool and the
returned code. -/
structure ReconfigureResult where
  pool : Pool
  ret : Int
deriving DecidableEq, Repr

/-- event_reconfigure_threads_epoll (event-epoll.c:837-906): in destroy
mode force the target to 0, otherwise clamp it to [1, EVENT_MAX_THREADS];
if dispatch already ran and the count grows, spawn workers for the new
indices (failures are logged and skipped); store the clamped value in
eventthreadcount and return 0 unconditionally. -/
def event_reconfigure_threads_epoll (pool : Pool) (value : Int)
    (allocOk spawnOk : Nat → Bool) (tid : Nat → Nat) : ReconfigureResult :=
  let value1 : Int :=
    if pool.destroy = 1 then 0
    else
      let v1 := if value > (EVENT_MAX_THREADS : Int)
                then (EVENT_MAX_THREADS : Int) else value
      if v1 ≤ 0 then 1 else v1
  let oldthreadcount := pool.eventthreadcount
  let pollers1 :=
    if event_pool_dispatched_unlocked pool = true ∧ oldthreadcount < value1
    then
      reconfigureSpawnLoop allocOk spawnOk tid pool.pollers
        oldthreadcount.toNat (value1 - oldthreadcount).toNat
    else pool.pollers
  { pool := { pool with pollers := pollers1, eventthreadcount := value1 }
    ret := 0 }

/-- A free slot as left by __event_newtable: calloc-zeroed except fd. -/
def freeSlot : Slot := { zeroSlot with fd := -1 }

/-- A representative live registered slot: fd 3, the registration-time
events mask plus EPOLLIN, generation 5, the registration's reference, a
non-NULL handler, idle (in_handler 0, no suppressed error). -/
def sampleSlot : Slot :=
  { fd := 3
    events := EPOLLPRI ||| EPOLLHUP ||| EPOLLERR ||| EPOLLONESHOT ||| EPOLLIN
    gen := 5
    idx := 0
    ref := 1
    do_close := false
    in_handler := 0
    handled_error := 0
    handler := 1
    data := 0
    on_poller_death := false }

/-- A bucket whose every slot is occupied: slots_used has reached
EVENT_EPOLL_SLOTS. -/
def fullTable : Table :=
  { slots_used := 1024, slots := List.replicate 1024 sampleSlot }

/-- A pool whose first (and only allocated) bucket is full while bucket 1
is still unallocated: the state on which __event_slot_alloc gives up even
though a fresh bucket could be allocated. -/
def fullPool : Pool :=
  { ereg := some fullTable :: List.replicate 1023 none
    destroy := 0
    eventthreadcount := 1
    activethreadcount := 1
    pollers := List.replicate 32 0 }

/-- A bucket with slot 0 occupied and every other slot free. -/
def halfTable : Table :=
  { slots_used := 1, slots := sampleSlot :: List.replicate 1023 freeSlot }

/-- A pool whose first bucket has its first free slot at offset 1, so the
next allocation returns handle 1. -/
def halfPool : Pool :=
  { fullPool with ereg := some halfTable :: List.replicate 1023 none }

/-- The tri-valued events update touches only the events mask: every other
slot field is preserved. -/
theorem slot_update_events_preserves (s : Slot) (poll_in poll_out : Int) :
    (__slot_update_events s poll_in poll_out).fd = s.fd
  ∧ (__slot_update_events s poll_in poll_out).gen = s.gen
  ∧ (__slot_update_events s poll_in poll_out).in_handler = s.in_handler
  ∧ (__slot_update_events s poll_in poll_out).ref = s.ref
  ∧ (__slot_update_events s poll_in poll_out).handled_error
      = s.handled_error := by
  unfold __slot_update_events
  split_ifs <;> simp

/-- The tri-valued events update commutes with overwriting the refcount,
since it never reads nor writes ref. -/
theorem slot_update_events_ref_comm (s : Slot) (x poll_in poll_out : Int) :
    __slot_update_events { s with ref := x } poll_in poll_out
      = { __slot_update_events s poll_in poll_out with ref := x } := by
  unfold __slot_update_events
  split_ifs <;> simp

/-- C8: the tri-valued events update is the identity for (-1, -1); 1 sets
the corresponding bit (EPOLLIN for poll_in, EPOLLOUT for poll_out), 0
clears it, and any value other than 1, 0, -1 changes nothing (the source
only logs it). -/
theorem c8_tri_valued_update (s : Slot) (poll_in poll_out : Int) :
    __slot_update_events s (-1) (-1) = s
  ∧ (__slot_update_events s 1 (-1)).events = s.events ||| EPOLLIN
  ∧ (__slot_update_events s 0 (-1)).events
      = s.events &&& (0xFFFFFFFF ^^^ EPOLLIN)
  ∧ (__slot_update_events s (-1) 1).events = s.events ||| EPOLLOUT
  ∧ (__slot_update_events s (-1) 0).events
      = s.events &&& (0xFFFFFFFF ^^^ EPOLLOUT)
  ∧ (__slot_update_events s 1 (-1)).events.testBit 0 = true
  ∧ (__slot_update_events s 0 (-1)).events.testBit 0 = false
  ∧ (__slot_update_events s (-1) 1).events.testBit 2 = true
  ∧ (__slot_update_events s (-1) 0).events.testBit 2 = false
  ∧ (poll_in ≠ 1 → poll_in ≠ 0 →
      __slot_update_events s poll_in poll_out
        = __slot_update_events s (-1) poll_out)
  ∧ (poll_out ≠ 1 → poll_out ≠ 0 →
      __slot_update_events s poll_in poll_out
        = __slot_update_events s poll_in (-1)) := by
  refine ⟨?_, ?_, ?_, ?_, ?_, ?_, ?_, ?_, ?_, ?_, ?_⟩
  · simp [__slot_update_events]
  · simp [__slot_update_events]
  · simp [__slot_update_events]
  · simp [__slot_update_events]
  · simp [__slot_update_events]
  · show (s.events ||| EPOLLIN).testBit 0 = true
    have hb : EPOLLIN.testBit 0 = true := by decide
    rw [Nat.testBit_lor, hb, Bool.or_true]
  · show (s.events &&& (0xFFFFFFFF ^^^ EPOLLIN)).testBit 0 = false
    have hb : (0xFFFFFFFF ^^^ EPOLLIN).testBit 0 = false := by decide
    rw [Nat.testBit_land, hb, Bool.and_false]
  · show (s.events ||| EPOLLOUT).testBit 2 = true
    have hb : EPOLLOUT.testBit 2 = true := by decide
    rw [Nat.testBit_lor, hb, Bool.or_true]
  · show (s.events &&& (0xFFFFFFFF ^^^ EPOLLOUT)).testBit 2 = false
    have hb : (0xFFFFFFFF ^^^ EPOLLOUT).testBit 2 = false := by decide
    rw [Nat.testBit_land, hb, Bool.and_false]
  · intro h1 h0
    simp [__slot_update_events, h1, h0]
  · intro h1 h0
    simp [__slot_update_events, h1, h0]

/-- Witness for C8 at a concrete slot: the value 7 is neither 1, 0 nor -1
and leaves the mask untouched. -/
theorem c8_tri_valued_update_witness :
    __slot_update_events sampleSlot 7 (-1)
      = __slot_update_events sampleSlot (-1) (-1) :=
  (c8_tri_valued_update sampleSlot 7 (-1)).2.2.2.2.2.2.2.2.2.1
    (by decide) (by decide)

/-- C5 counterexample: a negative handle makes both unregister variants
return -1, which is not the non-negative success result the claim
states. -/
theorem c5_counterexample :
    (event_unregister_epoll (some sampleSlot) 3 (-1) true).ret = -1
  ∧ ¬ (0 ≤ (event_unregister_epoll (some sampleSlot) 3 (-1) true).ret)
  ∧ (event_unregister_close_epoll (some sampleSlot) 3 (-1) true).ret = -1
  ∧ ¬ (0 ≤ (event_unregister_close_epoll (some sampleSlot) 3 (-1)
        true).ret) := by
  decide

/-- C5 amended: with a negative handle both unregister variants are a pure
no-op on the slot table and the kernel (no lookup, no EPOLL_CTL_DEL, no
close), but they return -1 — the initialized error value — rather than a
non-negative success result. -/
theorem c5_negative_handle (sOpt : Option Slot) (fd idx : Int) (k : Bool)
    (h : idx < 0) :
    event_unregister_epoll sOpt fd idx k
      = { slot := sOpt, kernelDel := false, closed := false, ret := -1 }
  ∧ event_unregister_close_epoll sOpt fd idx k
      = { slot := sOpt, kernelDel := false, closed := false, ret := -1 } := by
  constructor <;>
    simp [event_unregister_epoll, event_unregister_close_epoll,
      event_unregister_epoll_common, h]

/-- Witness for C5 amended at handle -1. -/
theorem c5_negative_handle_witness :
    (-1 : Int) < 0
  ∧ event_unregister_epoll (some sampleSlot) 3 (-1) true
      = { slot := some sampleSlot, kernelDel := false, closed := false,
          ret := -1 } :=
  ⟨by decide, (c5_negative_handle (some sampleSlot) 3 (-1) true
    (by decide)).1⟩

/-- C7 counterexample: with the slot found and in_handler zero, a failing
EPOLL_CTL_MOD (kernelOk = false) leaves the local epoll_ctl result at -1,
yet select_on returns idx = 5, which is not negative — the kernel arming
failure is not surfaced to the caller. -/
theorem c7_counterexample :
    (event_select_on_epoll (some sampleSlot) 3 5 1 1 false).kernelRet = -1
  ∧ (event_select_on_epoll (some sampleSlot) 3 5 1 1
      false).kernelCall.isSome = true
  ∧ (event_select_on_epoll (some sampleSlot) 3 5 1 1 false).ret = 5
  ∧ ¬ ((event_select_on_epoll (some sampleSlot) 3 5 1 1 false).ret < 0) := by
  decide

/-- C7 amended: select_on returns -1 exactly when the slot lookup fails;
when the slot is found it returns idx unchanged, independently of whether
the kernel modify succeeds, fails, or is skipped — a kernel arming failure
during select_on is only logged, never returned. -/
theorem c7_select_on_return (s : Slot) (fd idx poll_in poll_out : Int) :
    (∀ k, (event_select_on_epoll none fd idx poll_in poll_out k).ret = -1)
  ∧ (∀ k, (event_select_on_epoll (some s) fd idx poll_in poll_out k).ret
      = idx)
  ∧ (event_select_on_epoll (some s) fd idx poll_in poll_out true).ret
      = (event_select_on_epoll (some s) fd idx poll_in poll_out false).ret
  := by
  refine ⟨fun k => rfl, fun k => ?_, ?_⟩
  · simp only [event_select_on_epoll]
    split <;> rfl
  · simp only [event_select_on_epoll]
    split <;> rfl

/-- C6: when EPOLL_CTL_DEL fails during unregister, both references (the
lookup's and the registration's) are still dropped.  With no concurrent
dispatch reference (ref = 1 at entry), the second drop reaches zero and
deallocates the slot, which frees fd and bumps gen by one, so reuse is
safe; with concurrent references the slot keeps fd and gen until the last
reference drops (and only the deallocation makes it reusable). -/
theorem c6_unregister_del_failure (s : Slot) (fd idx : Int) (dc : Bool)
    (hidx : 0 ≤ idx) (href : s.ref = 1) :
    (event_unregister_epoll_common (some s) fd idx dc false).ret = -1
  ∧ (event_unregister_epoll_common (some s) fd idx dc false).kernelDel
      = true
  ∧ (event_unregister_epoll_common (some s) fd idx dc false).slot.map
      Slot.ref = some 0
  ∧ (event_unregister_epoll_common (some s) fd idx dc false).slot.map
      Slot.fd = some (-1)
  ∧ (event_unregister_epoll_common (some s) fd idx dc false).slot.map
      Slot.gen = some (s.gen + 1)
  ∧ (∀ t : Slot, 2 ≤ t.ref →
      (event_unregister_epoll_common (some t) fd idx dc false).slot
        = some { t with ref := t.ref - 1 }) := by
  have hnot : ¬ idx < 0 := by omega
  refine ⟨?_, ?_, ?_, ?_, ?_, ?_⟩
  · simp [event_unregister_epoll_common, hnot]
  · simp [event_unregister_epoll_common, hnot]
  · simp [event_unregister_epoll_common, hnot, event_slot_ref,
      event_slot_unref_slot, __event_slot_dealloc_slot, href]
  · simp [event_unregister_epoll_common, hnot, event_slot_ref,
      event_slot_unref_slot, __event_slot_dealloc_slot, href]
  · simp [event_unregister_epoll_common, hnot, event_slot_ref,
      event_slot_unref_slot, __event_slot_dealloc_slot, href]
  · intro t ht
    obtain ⟨tfd, tev, tg, tix, tr, tdc, tih, the, thl, tda, tpd⟩ := t
    simp only [Slot.ref] at ht
    have h1 : tr ≠ 0 := by omega
    have h2 : tr - 1 ≠ 0 := by omega
    simp [event_unregister_epoll_common, hnot, event_slot_ref,
      event_slot_unref_slot, h1, h2]

/-- Witness for C6 at a concrete registered slot with ref = 1 and handle
7: after the failed detach the slot is freed with gen bumped from 5 to
6. -/
theorem c6_unregister_del_failure_witness :
    (0 : Int) ≤ 7
  ∧ (event_unregister_epoll_common (some sampleSlot) 3 7 false false).slot.map
      Slot.gen = some (5 + 1) :=
  ⟨by decide, (c6_unregister_del_failure sampleSlot 3 7 false (by decide)
    (by decide)).2.2.2.2.1⟩

/-- C1: for a delivered event decoded as (handle, gen) whose slot lookup
succeeded, and under the invariants that the refcount is positive, that
in_handler is a counter that never goes negative, and that a registered
slot has a non-NULL handler, the dispatch step invokes the handler iff the
slot is live (fd not -1), the generations match, in_handler was 0 and
handled_error was clear; on invocation in_handler becomes 1 and
handled_error is set exactly when the event mask contains EPOLLERR or
EPOLLHUP; in every skipped case the slot is left unchanged — and in all
cases the lookup reference is dropped (net refcount unchanged) and the
function reports success. -/
theorem c1_dispatch_invocation (s : Slot) (gen : Int) (events : Nat)
    (href : 1 ≤ s.ref) (hih : 0 ≤ s.in_handler) (hh : s.handler ≠ 0) :
    ((event_dispatch_epoll_handler s gen events).invoked = true ↔
      (s.fd ≠ -1 ∧ gen = s.gen ∧ s.in_handler = 0 ∧ s.handled_error = 0))
  ∧ ((event_dispatch_epoll_handler s gen events).invoked = true →
      (event_dispatch_epoll_handler s gen events).slot.in_handler = 1
      ∧ ((event_dispatch_epoll_handler s gen events).slot.handled_error ≠ 0
          ↔ events &&& (EPOLLERR ||| EPOLLHUP) ≠ 0))
  ∧ ((event_dispatch_epoll_handler s gen events).invoked = false →
      (event_dispatch_epoll_handler s gen events).slot = s)
  ∧ (event_dispatch_epoll_handler s gen events).slot.ref = s.ref
  ∧ (event_dispatch_epoll_handler s gen events).ret = 0 := by
  obtain ⟨fd, ev, g, ix, r, dc, ih, he, hl, da, pd⟩ := s
  simp only [Slot.ref, Slot.in_handler, Slot.handler] at href hih hh
  have hr : r ≠ 0 := by omega
  simp only [event_dispatch_epoll_handler, event_slot_ref,
    event_slot_unref_slot]
  split_ifs with h1 h2 h3 h4 <;>
    simp_all <;> omega

/-- Witness for C1: on the sample idle registered slot with a matching
generation and an EPOLLIN event, the handler is invoked. -/
theorem c1_dispatch_invocation_witness :
    (event_dispatch_epoll_handler sampleSlot 5 EPOLLIN).invoked = true :=
  (c1_dispatch_invocation sampleSlot 5 EPOLLIN (by decide) (by decide)
    (by decide)).1.mpr (by decide)

/-- If in_handler is nonzero when select_on runs (and the refcount is
positive), the kernel is not called at all and the slot keeps exactly the
tri-valued events update. -/
theorem select_on_in_handler_skips (s : Slot) (fd idx poll_in poll_out : Int)
    (k : Bool) (hih : s.in_handler ≠ 0) (href : 1 ≤ s.ref) :
    (event_select_on_epoll (some s) fd idx poll_in poll_out k).kernelCall
      = none
  ∧ (event_select_on_epoll (some s) fd idx poll_in poll_out k).slot
      = some (__slot_update_events s poll_in poll_out) := by
  obtain ⟨fd1, ev, g, ix, r, dc, ih, he, hl, da, pd⟩ := s
  simp only [Slot.in_handler, Slot.ref] at hih href
  have hr : r ≠ 0 := by omega
  unfold event_select_on_epoll event_slot_ref __slot_update_events
    event_slot_unref_slot
  split_ifs <;> simp_all

/-- When the generation matches and in_handler is exactly 1 (one worker
mid-dispatch) with a positive refcount, event_handled re-arms the kernel
with the slot's current events mask and the unchanged gen. -/
theorem handled_rearm_when_last (s : Slot) (fd idx gen : Int) (k : Bool)
    (href : 1 ≤ s.ref) (hg : gen = s.gen) (hih : s.in_handler = 1) :
    (event_handled_epoll s fd idx gen k).rearm = some (s.events, idx, gen)
  := by
  obtain ⟨fd1, ev, g, ix, r, dc, ih, he, hl, da, pd⟩ := s
  simp only [Slot.in_handler, Slot.ref, Slot.gen] at hih href hg
  subst hih
  subst hg
  have hr : r ≠ 0 := by omega
  unfold event_handled_epoll event_slot_ref event_slot_unref_slot
  split_ifs <;> simp_all

/-- C2: event_handled always decrements in_handler; on a generation
mismatch it does nothing else; on a matching generation it re-arms the
kernel (EPOLL_CTL_MOD) exactly when in_handler has returned to zero, with
the slot's current events mask and the caller's unchanged gen in the
payload — therefore events changes made by select_on while in_handler was
positive (which themselves issue no kernel call) take effect at precisely
this re-arm. -/
theorem c2_handled_rearm (s : Slot) (fd idx gen : Int) (k : Bool)
    (href : 1 ≤ s.ref) :
    (event_handled_epoll s fd idx gen k).slot.in_handler = s.in_handler - 1
  ∧ (gen ≠ s.gen →
      (event_handled_epoll s fd idx gen k).rearm = none
      ∧ (event_handled_epoll s fd idx gen k).slot
          = { s with in_handler := s.in_handler - 1 })
  ∧ (gen = s.gen →
      ((event_handled_epoll s fd idx gen k).rearm = some (s.events, idx, gen)
        ↔ s.in_handler - 1 = 0))
  ∧ (s.in_handler = 1 → gen = s.gen → ∀ poll_in poll_out k1,
      (event_select_on_epoll (some s) fd idx poll_in poll_out k1).kernelCall
        = none
      ∧ (event_select_on_epoll (some s) fd idx poll_in poll_out k1).slot
          = some (__slot_update_events s poll_in poll_out)
      ∧ (event_handled_epoll (__slot_update_events s poll_in poll_out) fd idx
          gen k).rearm
          = some ((__slot_update_events s poll_in poll_out).events, idx, gen))
  := by
  refine ⟨?_, ?_, ?_, ?_⟩
  · obtain ⟨fd1, ev, g, ix, r, dc, ih, he, hl, da, pd⟩ := s
    simp only [Slot.ref] at href
    have hr : r ≠ 0 := by omega
    simp only [event_handled_epoll, event_slot_ref, event_slot_unref_slot]
    split_ifs <;> simp_all
  · intro hg
    obtain ⟨fd1, ev, g, ix, r, dc, ih, he, hl, da, pd⟩ := s
    simp only [Slot.ref] at href
    simp only [Slot.gen] at hg
    have hr : r ≠ 0 := by omega
    simp [event_handled_epoll, event_slot_ref, event_slot_unref_slot,
      hg, hr]
  · intro hg
    obtain ⟨fd1, ev, g, ix, r, dc, ih, he, hl, da, pd⟩ := s
    simp only [Slot.ref] at href
    simp only [Slot.gen] at hg
    subst hg
    have hr : r ≠ 0 := by omega
    simp only [event_handled_epoll, event_slot_ref, event_slot_unref_slot]
    split_ifs with h1 h2 <;> simp_all
  · intro hih hg poll_in poll_out k1
    have hp := slot_update_events_preserves s poll_in poll_out
    have hih1 : s.in_handler ≠ 0 := by omega
    refine ⟨(select_on_in_handler_skips s fd idx poll_in poll_out k1 hih1
        href).1,
      (select_on_in_handler_skips s fd idx poll_in poll_out k1 hih1
        href).2, ?_⟩
    refine handled_rearm_when_last _ fd idx gen k ?_ ?_ ?_
    · rw [hp.2.2.2.1]
      exact href
    · rw [hp.2.1]
      exact hg
    · rw [hp.2.2.1]
      exact hih

/-- Witness for C2: on the sample slot with in_handler 1 and matching
generation 5, event_handled re-arms with the slot's events mask, handle 7
and gen 5. -/
theorem c2_handled_rearm_witness :
    (event_handled_epoll { sampleSlot with in_handler := 1 } 3 7 5
      true).rearm = some (sampleSlot.events, 7, 5) :=
  ((c2_handled_rearm { sampleSlot with in_handler := 1 } 3 7 5 true
    (by decide)).2.2.1 (by decide)).mpr (by decide)

/-- C3: for a fixed slot, gen is strictly increasing: the alloc-time wipe
preserves the prior gen and bumps it by exactly one, deallocation bumps it
by exactly one (also through the table-level entry point), the unregister
locked section bumps it by exactly one when the kernel detach succeeds,
releasing a reference changes gen only on the final drop (then by one),
the overall unregister never decreases it, and dispatch, handled and
select_on leave it unchanged. -/
theorem c3_gen_monotonic (s : Slot) (t : Table) (offset : Nat)
    (fd idx handle gen poll_in poll_out : Int) (events : Nat)
    (notify dc k : Bool) :
    (__event_slot_wipe s fd notify handle).gen = s.gen + 1
  ∧ (__event_slot_dealloc_slot s).gen = s.gen + 1
  ∧ (∀ s0, t.slots.get? offset = some s0 →
      (__event_slot_dealloc t offset).slots.get? offset
        = some (__event_slot_dealloc_slot s0))
  ∧ (s.ref - 1 = 0 → (event_slot_unref_slot s).1.gen = s.gen + 1)
  ∧ (s.ref - 1 ≠ 0 → (event_slot_unref_slot s).1.gen = s.gen)
  ∧ (0 ≤ idx → k = true → 2 ≤ s.ref →
      (event_unregister_epoll_common (some s) fd idx dc k).slot.map Slot.gen
        = some (s.gen + 1))
  ∧ (0 ≤ idx → 1 ≤ s.ref →
      s.gen ≤ (((event_unregister_epoll_common (some s) fd idx dc
        k).slot.map Slot.gen).getD s.gen))
  ∧ (1 ≤ s.ref →
      (event_dispatch_epoll_handler s gen events).slot.gen = s.gen)
  ∧ (1 ≤ s.ref → (event_handled_epoll s fd idx gen k).slot.gen = s.gen)
  ∧ (1 ≤ s.ref →
      (event_select_on_epoll (some s) fd idx poll_in poll_out k).slot.map
        Slot.gen = some s.gen) := by
  refine ⟨?_, ?_, ?_, ?_, ?_, ?_, ?_, ?_, ?_, ?_⟩
  · unfold __event_slot_wipe
    split_ifs <;> simp
  · simp [__event_slot_dealloc_slot]
  · intro s0 h0
    have hlen : offset < t.slots.length := by
      by_contra hc
      rw [List.get?_eq_none.mpr (le_of_not_lt hc)] at h0
      exact absurd h0 (by simp)
    unfold __event_slot_dealloc
    rw [h0]
    simp [List.get?_eq_getElem?, List.getElem?_set_eq_of_lt _ hlen]
  · intro h0
    simp [event_slot_unref_slot, h0, __event_slot_dealloc_slot]
  · intro h0
    simp [event_slot_unref_slot, h0]
  · intro hidx hk hr2
    obtain ⟨fd1, ev, g, ix, r, dc1, ih, he, hl, da, pd⟩ := s
    simp only [Slot.ref] at hr2
    subst hk
    have hnot : ¬ idx < 0 := by omega
    have h1 : r ≠ 0 := by omega
    have h2 : r - 1 ≠ 0 := by omega
    simp [event_unregister_epoll_common, hnot, event_slot_ref,
      event_slot_unref_slot, h1, h2]
  · intro hidx hr1
    obtain ⟨fd1, ev, g, ix, r, dc1, ih, he, hl, da, pd⟩ := s
    simp only [Slot.ref] at hr1
    simp only [Slot.gen]
    have hnot : ¬ idx < 0 := by omega
    have h1 : r ≠ 0 := by omega
    simp only [event_unregister_epoll_common, hnot, event_slot_ref,
      event_slot_unref_slot, __event_slot_dealloc_slot]
    split_ifs <;> simp_all <;> try omega
  · intro hr1
    obtain ⟨fd1, ev, g, ix, r, dc1, ih, he, hl, da, pd⟩ := s
    simp only [Slot.ref] at hr1
    have h1 : r ≠ 0 := by omega
    simp only [event_dispatch_epoll_handler, event_slot_ref,
      event_slot_unref_slot]
    split_ifs <;> simp_all
  · intro hr1
    obtain ⟨fd1, ev, g, ix, r, dc1, ih, he, hl, da, pd⟩ := s
    simp only [Slot.ref] at hr1
    have h1 : r ≠ 0 := by omega
    simp only [event_handled_epoll, event_slot_ref, event_slot_unref_slot]
    split_ifs <;> simp_all
  · intro hr1
    have hp := slot_update_events_preserves (event_slot_ref s) poll_in
      poll_out
    have hslot : (event_select_on_epoll (some s) fd idx poll_in poll_out
        k).slot
        = some ((event_slot_unref_slot (__slot_update_events
            (event_slot_ref s) poll_in poll_out)).1) := by
      simp only [event_select_on_epoll]
      split <;> rfl
    have hr2 : (__slot_update_events (event_slot_ref s) poll_in
        poll_out).ref - 1 ≠ 0 := by
      rw [hp.2.2.2.1]
      simp only [event_slot_ref]
      omega
    rw [hslot]
    simp only [Option.map_some', Option.some.injEq]
    simp only [event_slot_unref_slot, if_neg hr2]
    rw [hp.2.1]
    simp [event_slot_ref]

/-- Witness for C3: unregistering the sample slot (with an extra dispatch
reference, so ref = 2) over a successful kernel detach bumps gen from 5 to
6. -/
theorem c3_gen_monotonic_witness :
    (event_unregister_epoll_common (some { sampleSlot with ref := 2 }) 3 7
      false true).slot.map Slot.gen = some (5 + 1) :=
  (c3_gen_monotonic { sampleSlot with ref := 2 }
    { slots_used := 0, slots := [] } 0 3 7 0 5 1 1 0 false false
    true).2.2.2.2.2.1 (by decide) rfl (by decide)

/-- A successful bucket scan points at a free slot inside the list. -/
theorem slot_scan_get (l : List Slot) (j : Nat) (h : __slot_scan l = some j) :
    ∃ s0, l.get? j = some s0 ∧ s0.fd = -1 := by
  induction l generalizing j with
  | nil => simp [__slot_scan] at h
  | cons a rest ih =>
    by_cases ha : a.fd = -1
    · simp only [__slot_scan, if_pos ha, Option.some.injEq] at h
      subst h
      exact ⟨a, rfl, ha⟩
    · simp only [__slot_scan, if_neg ha, Option.map_eq_some'] at h
      obtain ⟨j0, hj0, hj⟩ := h
      subst hj
      obtain ⟨s0, hs0, hfd⟩ := ih j0 hj0
      exact ⟨s0, by simpa using hs0, hfd⟩

/-- C4 counterexample: in a state where the single allocated bucket
(bucket 0) is full, allocation fails with -1 even though bucket 1 is
unallocated, allocatable (allocOk = true, and 1 < EVENT_EPOLL_TABLES), and
a freshly allocated bucket would offer a free slot at offset 0 — so a free
slot was available in an allocatable bucket, contradicting the claim that
allocation then returns a non-negative handle. -/
theorem c4_counterexample :
    (__event_slot_alloc fullPool 7 false true).2 = -1
  ∧ fullPool.ereg.getD 1 none = none
  ∧ 1 < EVENT_EPOLL_TABLES
  ∧ (__event_newtable fullPool 1 true).isSome = true
  ∧ __slot_scan (List.replicate EVENT_EPOLL_SLOTS { zeroSlot with fd := -1 })
      = some 0 := by
  refine ⟨rfl, rfl, by decide, rfl, rfl⟩

/-- One unfolding step of the allocation retry loop. -/
theorem alloc_loop_succ (fd : Int) (notify allocOk : Bool) (pool : Pool)
    (i fuel : Nat) :
    __event_slot_alloc_loop fd notify allocOk pool i (fuel + 1)
      = match pool.ereg.getD i none with
        | some t =>
          if t.slots_used = (EVENT_EPOLL_SLOTS : Int) then (pool, -1)
          else
            match __slot_scan t.slots with
            | some j => __event_slot_alloc_at pool i j t fd notify
            | none => __event_slot_alloc_loop fd notify allocOk pool (i + 1)
                fuel
        | none =>
          match __event_newtable pool i allocOk with
          | none => (pool, -1)
          | some (pool1, t) =>
            match __slot_scan t.slots with
            | some j => __event_slot_alloc_at pool1 i j t fd notify
            | none => __event_slot_alloc_loop fd notify allocOk pool1 (i + 1)
                fuel := rfl

/-- C4 amended: allocation gives up as soon as the first bucket it
examines is full — the source's scan loop returns -1 when bucket 0 exists
with slots_used equal to EVENT_EPOLL_SLOTS, regardless of later buckets —
and otherwise succeeds on bucket 0: it returns the offset of the first
free slot when bucket 0 has one, allocates a fresh bucket 0 (failing only
if that allocation fails) when none exists, and returns handle 0 from the
fresh bucket. -/
theorem c4_alloc_first_bucket (pool : Pool) (fd : Int)
    (notify allocOk : Bool) (t : Table) (j : Nat) :
    (pool.ereg.getD 0 none = some t →
      t.slots_used = (EVENT_EPOLL_SLOTS : Int) →
      (__event_slot_alloc pool fd notify allocOk).2 = -1)
  ∧ (pool.ereg.getD 0 none = some t →
      t.slots_used ≠ (EVENT_EPOLL_SLOTS : Int) →
      __slot_scan t.slots = some j →
      (__event_slot_alloc pool fd notify allocOk).2 = Int.ofNat j
      ∧ 0 ≤ (__event_slot_alloc pool fd notify allocOk).2)
  ∧ (pool.ereg.getD 0 none = none → allocOk = false →
      (__event_slot_alloc pool fd notify allocOk).2 = -1)
  ∧ (pool.ereg.getD 0 none = none → allocOk = true →
      (__event_slot_alloc pool fd notify allocOk).2 = 0) := by
  refine ⟨?_, ?_, ?_, ?_⟩
  · intro h hfull
    unfold __event_slot_alloc
    rw [show EVENT_EPOLL_TABLES = 1023 + 1 from rfl, alloc_loop_succ, h]
    simp [hfull]
  · intro h hne hscan
    obtain ⟨s0, hs0, hfd⟩ := slot_scan_get t.slots j hscan
    unfold __event_slot_alloc
    rw [show EVENT_EPOLL_TABLES = 1023 + 1 from rfl, alloc_loop_succ, h]
    simp only [hne, if_false, hscan]
    unfold __event_slot_alloc_at
    rw [hs0]
    simp
  · intro h ha
    subst ha
    unfold __event_slot_alloc
    rw [show EVENT_EPOLL_TABLES = 1023 + 1 from rfl, alloc_loop_succ, h]
    rfl
  · intro h ha
    subst ha
    unfold __event_slot_alloc
    rw [show EVENT_EPOLL_TABLES = 1023 + 1 from rfl, alloc_loop_succ, h]
    rfl

/-- Witness for C4 amended, clauses on a concrete pool: with bucket 0 at
offset 1 free, allocation returns handle 1 ≥ 0. -/
theorem c4_alloc_first_bucket_witness :
    (__event_slot_alloc halfPool 5 false true).2 = Int.ofNat 1
  ∧ 0 ≤ (__event_slot_alloc halfPool 5 false true).2 :=
  (c4_alloc_first_bucket halfPool 5 false true halfTable 1).2.1 rfl
    (by decide) rfl

/-- C9 counterexample: allocating (without poller-death notification) into
the pool whose first free slot is bucket 0, offset 1 returns handle 1, but
the allocated slot's idx field is 0, not the handle — idx is only written
when notify_poller_death is set. -/
theorem c9_counterexample :
    (__event_slot_alloc halfPool 5 false true).2 = 1
  ∧ ((((__event_slot_alloc halfPool 5 false true).1.ereg.getD 0
        none).getD fullTable).slots.getD 1 zeroSlot).idx = 0
  ∧ ((0 : Int) ≠ 1) := by
  refine ⟨rfl, rfl, by decide⟩

/-- C9 amended: a successful allocation returns the handle table-index ×
slots-per-table + offset and stores the wiped slot at that position, but
the slot's idx field is set to the handle only when poller-death
notification was requested; otherwise the memset leaves idx at 0. -/
theorem c9_idx_only_for_poller_death (pool : Pool) (i j : Nat) (t : Table)
    (s : Slot) (fd handle : Int)
    (hs : t.slots.get? j = some s) (hi : i < pool.ereg.length) :
    (∀ notify, (__event_slot_alloc_at pool i j t fd notify).2
        = Int.ofNat (i * EVENT_EPOLL_SLOTS + j))
  ∧ (∀ notify, ((__event_slot_alloc_at pool i j t fd notify).1.ereg.getD i
        none).map (fun tb => tb.slots.get? j)
        = some (some (event_slot_ref (__event_slot_wipe s fd notify
            (Int.ofNat (i * EVENT_EPOLL_SLOTS + j))))))
  ∧ (∀ notify, (event_slot_ref (__event_slot_wipe s fd notify handle)).idx
        = if notify then handle else 0) := by
  have hj : j < t.slots.length := by
    by_contra hc
    rw [List.get?_eq_none.mpr (le_of_not_lt hc)] at hs
    exact absurd hs (by simp)
  refine ⟨?_, ?_, ?_⟩
  · intro notify
    unfold __event_slot_alloc_at
    rw [hs]
  · intro notify
    unfold __event_slot_alloc_at
    rw [hs]
    simp only [List.getD, List.get?_eq_getElem?,
      List.getElem?_set_eq_of_lt _ hi, Option.getD_some, Option.map_some',
      Option.some.injEq, List.getElem?_set_eq_of_lt _ hj]
  · intro notify
    unfold __event_slot_wipe event_slot_ref
    split_ifs <;> simp [zeroSlot]

/-- Witness for C9 amended: at bucket 0, offset 1 of the sample pool the
returned handle is 1 and the stored slot is the wiped sample free slot. -/
theorem c9_idx_only_for_poller_death_witness :
    (∀ notify, (__event_slot_alloc_at halfPool 0 1 halfTable 5 notify).2
        = Int.ofNat (0 * EVENT_EPOLL_SLOTS + 1))
  ∧ (∀ notify,
      (event_slot_ref (__event_slot_wipe freeSlot 5 notify 1)).idx
        = if notify then 1 else 0) :=
  ⟨(c9_idx_only_for_poller_death halfPool 0 1 halfTable freeSlot 5 1 rfl
      (by decide)).1,
   (c9_idx_only_for_poller_death halfPool 0 1 halfTable freeSlot 5 1 rfl
      (by decide)).2.2⟩

/-- Setting one roster entry leaves every other entry unchanged. -/
theorem roster_getD_set_ne (l : List Nat) (i m v d : Nat) (h : i ≠ m) :
    (l.set i v).getD m d = l.getD m d := by
  simp [List.getD, List.getElem?_set_ne h]

/-- The spawn loop never touches a roster index whose per-thread argument
allocation or thread creation fails. -/
theorem reconfigureSpawnLoop_preserves (allocOk spawnOk : Nat → Bool)
    (tid : Nat → Nat) (m : Nat)
    (hm : allocOk m = false ∨ spawnOk m = false) :
    ∀ (fuel : Nat) (pollers : List Nat) (i : Nat),
      (reconfigureSpawnLoop allocOk spawnOk tid pollers i fuel).getD m 0
        = pollers.getD m 0 := by
  intro fuel
  induction fuel with
  | zero => intro pollers i; rfl
  | succ n ihn =>
    intro pollers i
    simp only [reconfigureSpawnLoop]
    rw [ihn]
    by_cases him : i = m
    · subst him
      rcases hm with h | h <;> simp [h]
    · split_ifs <;> simp [List.getD, List.getElem?_set_ne him]

/-- C10: event_reconfigure_threads always returns 0, for every input and
every outcome of the per-thread allocations and thread creations; spawn
failures only mean the corresponding roster entries stay untouched; and
eventthreadcount is always set to the clamped target — 0 in destroy mode,
otherwise between 1 and EVENT_MAX_THREADS (and equal to the request when
the request was already in range). -/
theorem c10_reconfigure_returns_zero (pool : Pool) (value : Int)
    (allocOk spawnOk : Nat → Bool) (tid : Nat → Nat) :
    (event_reconfigure_threads_epoll pool value allocOk spawnOk tid).ret = 0
  ∧ (pool.destroy = 1 →
      (event_reconfigure_threads_epoll pool value allocOk spawnOk
        tid).pool.eventthreadcount = 0)
  ∧ (pool.destroy ≠ 1 →
      1 ≤ (event_reconfigure_threads_epoll pool value allocOk spawnOk
        tid).pool.eventthreadcount
      ∧ (event_reconfigure_threads_epoll pool value allocOk spawnOk
        tid).pool.eventthreadcount ≤ (EVENT_MAX_THREADS : Int))
  ∧ (pool.destroy ≠ 1 → 1 ≤ value → value ≤ (EVENT_MAX_THREADS : Int) →
      (event_reconfigure_threads_epoll pool value allocOk spawnOk
        tid).pool.eventthreadcount = value)
  ∧ (∀ m, allocOk m = false ∨ spawnOk m = false →
      (event_reconfigure_threads_epoll pool value allocOk spawnOk
        tid).pool.pollers.getD m 0 = pool.pollers.getD m 0) := by
  refine ⟨rfl, ?_, ?_, ?_, ?_⟩
  · intro hd
    simp [event_reconfigure_threads_epoll, hd]
  · intro hd
    simp only [event_reconfigure_threads_epoll, EVENT_MAX_THREADS]
    split_ifs <;> simp_all <;> omega
  · intro hd h1 h2
    simp only [event_reconfigure_threads_epoll, EVENT_MAX_THREADS] at h2 ⊢
    split_ifs <;> simp_all <;> omega
  · intro m hm
    simp only [event_reconfigure_threads_epoll]
    split_ifs <;>
      first
        | rfl
        | exact reconfigureSpawnLoop_preserves allocOk spawnOk tid m hm _ _ _

/-- Witness for C10: reconfiguring the sample pool (not in destroy mode)
to 100 threads clamps eventthreadcount into [1, 32] while returning 0. -/
theorem c10_reconfigure_returns_zero_witness :
    fullPool.destroy ≠ 1
  ∧ (1 ≤ (event_reconfigure_threads_epoll fullPool 100 (fun _ => true)
      (fun _ => true) (fun i => i + 10)).pool.eventthreadcount
     ∧ (event_reconfigure_threads_epoll fullPool 100 (fun _ => true)
      (fun _ => true) (fun i => i + 10)).pool.eventthreadcount
        ≤ (EVENT_MAX_THREADS : Int)) :=
  ⟨by decide, (c10_reconfigure_returns_zero fullPool 100 (fun _ => true)
    (fun _ => true) (fun i => i + 10)).2.2.1 (by decide)⟩

end EventEpoll
